import Mathlib

/-!
Shallow embedding of the authentication and token-lifecycle core of the
social-media-scheduler backend (src/backend/auth.py, src/backend/config.py,
src/backend/main.py, src/backend/models.py, src/backend/schema.py).

Times are seconds on the UTC timeline (Int); a Python datetime is a value
together with an awareness flag (tzinfo present or not).  The bcrypt digests
produced through passlib are modelled algebraically: a well-formed digest
records the salt and the hashed secret, any other string is a malformed
digest on which passlib raises UnknownHashError.  A JWT produced through
python-jose is modelled as its claim set together with the signing key and
algorithm; decoding checks the key, the algorithm list and the exp claim
(jose rejects a token exactly when exp is strictly before the current time,
default leeway 0).  Randomness (salts, fresh opaque refresh-token strings)
enters as explicit parameters.
-/

deriving instance DecidableEq for Except

namespace Scheduler

/-- A Python datetime: seconds on the UTC timeline plus a tzinfo flag.
SQLite hands back naive values, PostgreSQL aware ones. -/
structure Dt where
  t : Int
  aware : Bool
deriving DecidableEq

/-- datetime.replace with tzinfo=timezone.utc applied when tzinfo is None
(auth.py lines 120-121). -/
def normalizeUtc (d : Dt) : Dt := if d.aware then d else { d with aware := true }

/-- A password or refresh-token digest as stored in the database.  passlib
with schemes=["bcrypt"] produces a salted digest of the secret; any string
that does not parse as a recognised hash is malformed. -/
inductive Digest where
  | bcrypt (salt : Nat) (secret : String)
  | malformed (text : String)
deriving DecidableEq

/-- passlib CryptContext.hash: a fresh salt, supplied here as a parameter,
makes the digest of the given secret. -/
def pwd_context_hash (salt : Nat) (secret : String) : Digest :=
  Digest.bcrypt salt secret

/-- passlib CryptContext.verify: on a well-formed digest it reports whether
the candidate secret matches; on a malformed digest it raises
UnknownHashError (a ValueError), which the model returns as an error. -/
def pwd_context_verify (secret : String) (digest : Digest) : Except String Bool :=
  match digest with
  | Digest.bcrypt _ s => Except.ok (secret == s)
  | Digest.malformed _ => Except.error "UnknownHashError"

/-- auth.py lines 27-28: verify_password delegates to pwd_context.verify
without catching anything. -/
def verify_password (plain_password : String) (hashed_password : Digest) :
    Except String Bool :=
  pwd_context_verify plain_password hashed_password

/-- auth.py lines 31-32. -/
def get_password_hash (salt : Nat) (password : String) : Digest :=
  pwd_context_hash salt password

/-- models.py UserRole. -/
inductive UserRole where
  | user
  | admin
deriving DecidableEq

/-- models.py User: the fields the auth core reads or writes. -/
structure User where
  id : Nat
  email : String
  username : String
  hashed_password : Digest
  is_active : Bool := true
  role : UserRole := UserRole.user
  refresh_token_hash : Option Digest := none
  refresh_token_expires_at : Option Dt := none
  token_version : Int := 0
deriving DecidableEq

/-- config.py Settings, once constructed. -/
structure Settings where
  SECRET_KEY : String
  ALGORITHM : String
  ACCESS_TOKEN_EXPIRE_MINUTES : Int
  REFRESH_TOKEN_EXPIRE_DAYS : Int
  DATABASE_URL : String
deriving DecidableEq

/-- The environment variables config.py reads through pydantic-settings. -/
structure EnvVars where
  SECRET_KEY : Option String
  DATABASE_URL : Option String
deriving DecidableEq

/-- config.py lines 8-36 under pydantic-settings semantics: a field of type
str with no default (SECRET_KEY, DATABASE_URL) raises a ValidationError at
Settings() when its variable is absent; a present value of any content,
the empty string included, is accepted, and the remaining fields take their
declared defaults. -/
def Settings_build (env : EnvVars) : Except String Settings :=
  match env.SECRET_KEY, env.DATABASE_URL with
  | none, _ => Except.error "ValidationError: SECRET_KEY field required"
  | some _, none => Except.error "ValidationError: DATABASE_URL field required"
  | some sk, some db =>
      Except.ok { SECRET_KEY := sk, ALGORITHM := "HS256",
                  ACCESS_TOKEN_EXPIRE_MINUTES := 30,
                  REFRESH_TOKEN_EXPIRE_DAYS := 7, DATABASE_URL := db }

/-- The claim set of an access token: sub and version as the code reads them
with payload.get, plus the exp claim create_access_token always writes. -/
structure JwtClaims where
  sub : Option String
  version : Option Int
  exp : Int
deriving DecidableEq

/-- A signed token: its claims plus the key and algorithm it was signed
with.  Signature validity is modelled as key equality. -/
structure Jwt where
  claims : JwtClaims
  key : String
  alg : String
deriving DecidableEq

/-- jose jwt.encode. -/
def jwt_encode (claims : JwtClaims) (key : String) (alg : String) : Jwt :=
  { claims := claims, key := key, alg := alg }

/-- jose jwt.decode at the current time: checks the algorithm list, the
signature (key equality), and the exp claim; jose raises
ExpiredSignatureError exactly when exp is strictly before now. -/
def jwt_decode (tok : Jwt) (key : String) (algs : List String) (now : Int) :
    Except String JwtClaims :=
  if tok.alg ∉ algs then Except.error "JWTError: algorithm not allowed"
  else if tok.key ≠ key then Except.error "JWTError: signature verification failed"
  else if tok.claims.exp < now then Except.error "ExpiredSignatureError"
  else Except.ok tok.claims

/-- The payload dict handed to create_access_token before exp is added. -/
structure TokenData where
  sub : Option String
  version : Option Int
deriving DecidableEq

/-- auth.py lines 62-73: create_access_token.  expires_delta in seconds;
None falls back to ACCESS_TOKEN_EXPIRE_MINUTES. -/
def create_access_token (s : Settings) (now : Int) (data : TokenData)
    (expires_delta : Option Int) : Jwt :=
  let expire := now + expires_delta.getD (s.ACCESS_TOKEN_EXPIRE_MINUTES * 60)
  jwt_encode { sub := data.sub, version := data.version, exp := expire }
    s.SECRET_KEY s.ALGORITHM

/-- HTTP errors raised by the auth core, and uncaught Python exceptions. -/
structure HttpError where
  status_code : Nat
  detail : String
deriving DecidableEq

/-- Either an HTTPException or an uncaught exception (e.g. a passlib
ValueError propagating out of verify). -/
inductive PyErr where
  | http (e : HttpError)
  | valueError (msg : String)
deriving DecidableEq

/-- auth.py lines 104-108: the uniform rejection of rotate_refresh_token. -/
def credentials_exception_refresh : HttpError :=
  { status_code := 401, detail := "Invalid or expired refresh token" }

/-- auth.py lines 153-157: the uniform rejection of get_current_user. -/
def credentials_exception : HttpError :=
  { status_code := 401, detail := "Could not validate credentials" }

/-- auth.py line 185. -/
def inactive_user_error : HttpError :=
  { status_code := 400, detail := "Inactive user" }

/-- auth.py lines 194-197. -/
def admin_required_error : HttpError :=
  { status_code := 403, detail := "Admin privileges required" }

/-- auth.py lines 39-41: first user whose username matches. -/
def get_user_by_username (db : List User) (username : String) : Option User :=
  db.find? (fun u => u.username == username)

/-- auth.py lines 49-55: authenticate_user; Python returns False where the
model returns none.  A malformed stored password digest makes passlib raise,
which propagates (valueError). -/
def authenticate_user (db : List User) (username password : String) :
    Except PyErr (Option User) :=
  match get_user_by_username db username with
  | none => Except.ok none
  | some user =>
      match verify_password password user.hashed_password with
      | Except.error m => Except.error (PyErr.valueError m)
      | Except.ok false => Except.ok none
      | Except.ok true => Except.ok (some user)

/-- auth.py lines 85-95: create_refresh_token.  The fresh opaque token
(secrets.token_urlsafe) and the bcrypt salt are explicit parameters; the
digest of the fresh token and an aware expiry now + REFRESH_TOKEN_EXPIRE_DAYS
are stored on the user, and the raw value is returned. -/
def create_refresh_token (s : Settings) (now : Int) (raw : String) (salt : Nat)
    (user : User) : User × String :=
  ({ user with
      refresh_token_hash := some (pwd_context_hash salt raw),
      refresh_token_expires_at :=
        some { t := now + s.REFRESH_TOKEN_EXPIRE_DAYS * 86400, aware := true } },
   raw)

/-- auth.py lines 98-129: rotate_refresh_token.  Checks, in order: a stored
hash exists; a stored expiry exists; the expiry, normalised to UTC-aware,
is not strictly before now; the presented raw token verifies against the
stored digest.  Any check failing raises the uniform 401; a malformed stored
digest would make passlib raise, which propagates uncaught.  On success the
rotation is create_refresh_token with a fresh raw value and salt. -/
def rotate_refresh_token (s : Settings) (now : Int) (newRaw : String)
    (newSalt : Nat) (user : User) (raw_token : String) :
    Except PyErr (User × String) :=
  match user.refresh_token_hash with
  | none => Except.error (PyErr.http credentials_exception_refresh)
  | some stored =>
      match user.refresh_token_expires_at with
      | none => Except.error (PyErr.http credentials_exception_refresh)
      | some e0 =>
          let expires_at := normalizeUtc e0
          if expires_at.t < now then
            Except.error (PyErr.http credentials_exception_refresh)
          else
            match pwd_context_verify raw_token stored with
            | Except.error m => Except.error (PyErr.valueError m)
            | Except.ok false =>
                Except.error (PyErr.http credentials_exception_refresh)
            | Except.ok true =>
                Except.ok (create_refresh_token s now newRaw newSalt user)

/-- The user record as persisted after a rotate_refresh_token call: the
Python function raises before assigning any field, so on every rejection the
record is exactly the prior one. -/
def rotate_refresh_token_state (s : Settings) (now : Int) (newRaw : String)
    (newSalt : Nat) (user : User) (raw_token : String) : User :=
  match rotate_refresh_token s now newRaw newSalt user raw_token with
  | Except.ok (u, _) => u
  | Except.error _ => user

/-- auth.py lines 132-142: revoke_tokens bumps token_version and clears the
refresh-token state; the commit persists all three writes together. -/
def revoke_tokens (user : User) : User :=
  { user with
      token_version := user.token_version + 1,
      refresh_token_hash := none,
      refresh_token_expires_at := none }

/-- auth.py lines 149-178: get_current_user.  Decode failures, a missing sub
or version claim, an unknown subject and a version mismatch all raise the
one credentials_exception. -/
def get_current_user (s : Settings) (db : List User) (now : Int) (token : Jwt) :
    Except PyErr User :=
  match jwt_decode token s.SECRET_KEY [s.ALGORITHM] now with
  | Except.error _ => Except.error (PyErr.http credentials_exception)
  | Except.ok payload =>
      match payload.sub, payload.version with
      | some username, some token_version =>
          match get_user_by_username db username with
          | none => Except.error (PyErr.http credentials_exception)
          | some user =>
              if token_version ≠ user.token_version then
                Except.error (PyErr.http credentials_exception)
              else Except.ok user
      | _, _ => Except.error (PyErr.http credentials_exception)

/-- auth.py lines 181-186. -/
def get_current_active_user (s : Settings) (db : List User) (now : Int)
    (token : Jwt) : Except PyErr User :=
  match get_current_user s db now token with
  | Except.error e => Except.error e
  | Except.ok u =>
      if !u.is_active then Except.error (PyErr.http inactive_user_error)
      else Except.ok u

/-- auth.py lines 189-198. -/
def get_current_admin_user (s : Settings) (db : List User) (now : Int)
    (token : Jwt) : Except PyErr User :=
  match get_current_active_user s db now token with
  | Except.error e => Except.error e
  | Except.ok u =>
      if u.role ≠ UserRole.admin then
        Except.error (PyErr.http admin_required_error)
      else Except.ok u

/-- schema.py lines 51-53: the login response model has exactly these two
fields. -/
structure Token where
  access_token : Jwt
  token_type : String
deriving DecidableEq

/-- main.py lines 312-349: register_user.  Rejects a duplicate email or
username, otherwise appends a new record with the model defaults
(is_active true, role user, token_version 0, no refresh-token state). -/
def register_user (db : List User) (new_id salt : Nat)
    (email username password : String) : Except PyErr (List User × User) :=
  if db.any (fun u => u.email == email || u.username == username) then
    Except.error (PyErr.http
      { status_code := 400,
        detail := "User with this email or username already exists" })
  else
    let db_user : User :=
      { id := new_id, email := email, username := username,
        hashed_password := get_password_hash salt password }
    Except.ok (db ++ [db_user], db_user)

/-- main.py lines 352-369: login_for_access_token.  On a correct password it
mints an access token from data = a dict holding only sub, and returns the
Token response; it stores no refresh token and embeds no version claim. -/
def login_for_access_token (s : Settings) (db : List User) (now : Int)
    (username password : String) : Except PyErr Token :=
  match authenticate_user db username password with
  | Except.error e => Except.error e
  | Except.ok none =>
      Except.error (PyErr.http
        { status_code := 401, detail := "Incorrect username or password" })
  | Except.ok (some user) =>
      let access_token_expires := s.ACCESS_TOKEN_EXPIRE_MINUTES * 60
      Except.ok
        { access_token :=
            create_access_token s now
              { sub := some user.username, version := none }
              (some access_token_expires),
          token_type := "bearer" }

/-- A concrete settings value as the test environment builds it. -/
def s0 : Settings :=
  { SECRET_KEY := "k", ALGORITHM := "HS256",
    ACCESS_TOKEN_EXPIRE_MINUTES := 30, REFRESH_TOKEN_EXPIRE_DAYS := 7,
    DATABASE_URL := "sqlite" }

/-- The record register_user creates for alice (salt 5, defaults from
models.py). -/
def aliceUser : User :=
  { id := 1, email := "alice@test.com", username := "alice",
    hashed_password := Digest.bcrypt 5 "pass123" }

/-- The store after registering alice into an empty store. -/
def aliceDb : List User := [aliceUser]

/-- The Token response login_for_access_token returns for alice at time
1000: exp = 1000 + 30 * 60, sub = alice, and no version claim. -/
def aliceLogin : Token :=
  { access_token :=
      jwt_encode { sub := some "alice", version := none, exp := 2800 } "k" "HS256",
    token_type := "bearer" }

/-- A user holding a live refresh token whose stored expiry is exactly 100. -/
def u5 : User :=
  { id := 3, email := "u5@test.com", username := "u5",
    hashed_password := Digest.bcrypt 0 "pw",
    refresh_token_hash := some (Digest.bcrypt 0 "tok"),
    refresh_token_expires_at := some { t := 100, aware := true } }

/-- u5 after the boundary-time rotation that installs digest of new. -/
def u5r : User := (create_refresh_token s0 100 "new" 1 u5).1

/-- A user with no refresh-token state. -/
def uNone : User :=
  { id := 4, email := "n@test.com", username := "n",
    hashed_password := Digest.bcrypt 0 "p" }

/-- C1: the scenario register alice, login with the correct password,
present the returned access token to get_current_user before expiry with no
revocation: the gate REJECTS the token with the uniform 401, because
login_for_access_token mints the token without a version claim while
get_current_user requires one.  This exhibits the divergence between the
code and the claim. -/
theorem login_token_rejected_by_gate :
    register_user [] 1 5 "alice@test.com" "alice" "pass123"
      = Except.ok (aliceDb, aliceUser) ∧
    login_for_access_token s0 aliceDb 1000 "alice" "pass123"
      = Except.ok aliceLogin ∧
    get_current_user s0 aliceDb 1001 aliceLogin.access_token
      = Except.error (PyErr.http credentials_exception) := by
  decide

/-- C2: at the same successful login the response is exactly the two-field
Token value (schema.py Token has no refresh-token field), and no refresh
token digest or expiry is stored for alice: the login path never calls
create_refresh_token.  This exhibits the divergence between the code and
the claim. -/
theorem login_stores_no_refresh_token :
    login_for_access_token s0 aliceDb 1000 "alice" "pass123"
      = Except.ok aliceLogin ∧
    aliceLogin.token_type = "bearer" ∧
    (∀ u, u ∈ aliceDb →
      u.refresh_token_hash = none ∧ u.refresh_token_expires_at = none) := by
  refine ⟨by decide, rfl, ?_⟩
  intro u hu
  have : u = aliceUser := by
    simpa [aliceDb] using hu
  subst this
  exact ⟨rfl, rfl⟩


/-- C3: for every user and freshly issued refresh token raw, the first
rotate call (before the stored expiry) succeeds and installs a new digest,
and a second call with the same raw value, the fresh replacement being a
different string, fails with the uniform invalid-credentials rejection. -/
theorem rotate_refresh_token_single_use (s : Settings) (u : User)
    (t0 t1 t2 : Int) (raw r1 r2 : String) (salt s1 s2 : Nat)
    (h_live : t1 ≤ t0 + s.REFRESH_TOKEN_EXPIRE_DAYS * 86400)
    (h_fresh : r1 ≠ raw) :
    rotate_refresh_token s t1 r1 s1 (create_refresh_token s t0 raw salt u).1 raw
      = Except.ok (create_refresh_token s t1 r1 s1 (create_refresh_token s t0 raw salt u).1) ∧
    rotate_refresh_token s t2 r2 s2
        (create_refresh_token s t1 r1 s1 (create_refresh_token s t0 raw salt u).1).1 raw
      = Except.error (PyErr.http credentials_exception_refresh) := by
  have hraw : (raw == r1) = false := beq_eq_false_iff_ne.mpr (Ne.symm h_fresh)
  constructor
  · have hne : ¬ (t0 + s.REFRESH_TOKEN_EXPIRE_DAYS * 86400 < t1) := by omega
    simp [rotate_refresh_token, create_refresh_token, pwd_context_hash,
      pwd_context_verify, normalizeUtc, hne]
  · by_cases hc : t1 + s.REFRESH_TOKEN_EXPIRE_DAYS * 86400 < t2 <;>
      simp [rotate_refresh_token, create_refresh_token, pwd_context_hash,
        pwd_context_verify, normalizeUtc, hc, hraw]

/-- Witness for C3 at concrete inputs. -/
theorem rotate_refresh_token_single_use_witness :
    rotate_refresh_token s0 1000 "r1" 4 (create_refresh_token s0 0 "raw" 3 uNone).1 "raw"
      = Except.ok (create_refresh_token s0 1000 "r1" 4 (create_refresh_token s0 0 "raw" 3 uNone).1) ∧
    rotate_refresh_token s0 2000 "r2" 6
        (create_refresh_token s0 1000 "r1" 4 (create_refresh_token s0 0 "raw" 3 uNone).1).1 "raw"
      = Except.error (PyErr.http credentials_exception_refresh) :=
  rotate_refresh_token_single_use s0 uNone 0 1000 2000 "raw" "r1" "r2" 3 4 6
    (by decide) (by decide)


/-- C4: revoke_tokens increments token_version by exactly one and clears
both refresh-token fields; afterwards every access token embedding any
earlier epoch is rejected by get_current_user, and any rotate attempt is
rejected because no stored digest remains. -/
theorem revoke_tokens_semantics (s : Settings) (u : User) (v t0 now : Int)
    (d : Option Int) (raw nr : String) (ns : Nat)
    (h_old : v < (revoke_tokens u).token_version) :
    (revoke_tokens u).token_version = u.token_version + 1 ∧
    (revoke_tokens u).refresh_token_hash = none ∧
    (revoke_tokens u).refresh_token_expires_at = none ∧
    get_current_user s [revoke_tokens u] now
        (create_access_token s t0 { sub := some u.username, version := some v } d)
      = Except.error (PyErr.http credentials_exception) ∧
    rotate_refresh_token s now nr ns (revoke_tokens u) raw
      = Except.error (PyErr.http credentials_exception_refresh) := by
  refine ⟨rfl, rfl, rfl, ?_, rfl⟩
  have hv : v ≠ u.token_version + 1 := by
    simp only [revoke_tokens] at h_old; omega
  by_cases he : (t0 + d.getD (s.ACCESS_TOKEN_EXPIRE_MINUTES * 60)) < now <;>
    simp [get_current_user, jwt_decode, create_access_token, jwt_encode,
      get_user_by_username, revoke_tokens, he, hv]

/-- Witness for C4 at concrete inputs. -/
theorem revoke_tokens_semantics_witness :
    (revoke_tokens u5).token_version = u5.token_version + 1 ∧
    (revoke_tokens u5).refresh_token_hash = none ∧
    (revoke_tokens u5).refresh_token_expires_at = none ∧
    get_current_user s0 [revoke_tokens u5] 1500
        (create_access_token s0 1000 { sub := some u5.username, version := some 0 } none)
      = Except.error (PyErr.http credentials_exception) ∧
    rotate_refresh_token s0 1500 "nr" 9 (revoke_tokens u5) "tok"
      = Except.error (PyErr.http credentials_exception_refresh) :=
  revoke_tokens_semantics s0 u5 0 1000 1500 none "tok" "nr" 9 (by decide)

/-- The rejection condition of the C5 claim read literally from the spec:
no stored digest, or the stored expiry is not in the future relative to now
(after normalising a naive expiry to UTC), or the presented raw token does
not hash-compare against the stored digest. -/
def spec_rejects_rotate (u : User) (raw : String) (now : Int) : Prop :=
  u.refresh_token_hash = none ∨
  (∀ e, u.refresh_token_expires_at = some e → ¬ now < (normalizeUtc e).t) ∨
  (∀ d, u.refresh_token_hash = some d → pwd_context_verify raw d ≠ Except.ok true)

/-- C5 counterexample: for u5 at time 100 the stored expiry (100) is not in
the future, so the claim as stated demands the uniform rejection, yet the
code accepts the rotation: rotate_refresh_token only rejects on a strictly
past expiry (now strictly greater than the stored expiry). -/
theorem rotate_rejects_iff_counterexample :
    spec_rejects_rotate u5 "tok" 100 ∧
    rotate_refresh_token s0 100 "new" 1 u5 "tok"
      = Except.ok (create_refresh_token s0 100 "new" 1 u5) := by
  refine ⟨Or.inr (Or.inl ?_), by decide⟩
  intro e he
  have : e = { t := 100, aware := true } := by
    have h5 : u5.refresh_token_expires_at = some { t := 100, aware := true } := rfl
    rw [h5] at he
    exact (Option.some.inj he).symm
  subst this
  decide

/-- C5 amended: under the invariant that every stored digest is well-formed
(the manager only ever stores pwd_context_hash output), rotate rejects with
the uniform 401 exactly when the stored digest is absent, the stored expiry
is absent, the UTC-normalised stored expiry is strictly before the current
time, or the presented raw token fails the hash comparison; and every
rejection leaves the persisted user record unchanged. -/
theorem rotate_rejects_iff (s : Settings) (now : Int) (nr : String) (ns : Nat)
    (u : User) (raw : String)
    (h_wf : ∀ d, u.refresh_token_hash = some d →
      ∃ sa se, d = Digest.bcrypt sa se) :
    (rotate_refresh_token s now nr ns u raw
        = Except.error (PyErr.http credentials_exception_refresh) ↔
      (u.refresh_token_hash = none ∨ u.refresh_token_expires_at = none ∨
       (∃ e, u.refresh_token_expires_at = some e ∧ (normalizeUtc e).t < now) ∨
       (∃ d, u.refresh_token_hash = some d ∧
          pwd_context_verify raw d = Except.ok false))) ∧
    (∀ e, rotate_refresh_token s now nr ns u raw = Except.error e →
      rotate_refresh_token_state s now nr ns u raw = u) := by
  constructor
  · cases hh : u.refresh_token_hash with
    | none => simp [rotate_refresh_token, hh]
    | some d =>
        obtain ⟨sa, se, rfl⟩ := h_wf d hh
        cases hx : u.refresh_token_expires_at with
        | none => simp [rotate_refresh_token, hh, hx]
        | some e0 =>
            by_cases ht : (normalizeUtc e0).t < now
            · simp [rotate_refresh_token, hh, hx, ht, pwd_context_verify]
            · by_cases hm : (raw == se) = true
              · simp [rotate_refresh_token, hh, hx, ht, pwd_context_verify, hm]
              · have hm2 : (raw == se) = false := by
                  cases h : (raw == se) with
                  | false => rfl
                  | true => exact absurd h hm
                simp [rotate_refresh_token, hh, hx, ht, pwd_context_verify, hm2]
  · intro e he
    simp [rotate_refresh_token_state, he]

/-- Witness for C5 amended at a concrete input with no stored digest. -/
theorem rotate_rejects_iff_witness :
    rotate_refresh_token s0 100 "new" 1 uNone "x"
      = Except.error (PyErr.http credentials_exception_refresh) :=
  ((rotate_rejects_iff s0 100 "new" 1 uNone "x"
      (fun _ hd => Option.noConfusion hd)).1).mpr (Or.inl rfl)


/-- get_current_user only ever fails with the one credentials_exception. -/
theorem get_current_user_error_uniform (s : Settings) (db : List User)
    (now : Int) (token : Jwt) (e : PyErr)
    (h : get_current_user s db now token = Except.error e) :
    e = PyErr.http credentials_exception := by
  cases hd : jwt_decode token s.SECRET_KEY [s.ALGORITHM] now with
  | error m => simp [get_current_user, hd] at h; exact h.symm
  | ok p =>
      cases hs : p.sub with
      | none => simp [get_current_user, hd, hs] at h; exact h.symm
      | some un =>
          cases hv : p.version with
          | none => simp [get_current_user, hd, hs, hv] at h; exact h.symm
          | some v =>
              cases hu : get_user_by_username db un with
              | none => simp [get_current_user, hd, hs, hv, hu] at h; exact h.symm
              | some u =>
                  by_cases hne : v = u.token_version
                  · simp [get_current_user, hd, hs, hv, hu, hne] at h
                  · simp [get_current_user, hd, hs, hv, hu, hne] at h
                    exact h.symm


/-- The active-user gate passes a user through exactly when the identity
gate produced it and it is active. -/
theorem get_current_active_user_ok (s : Settings) (db : List User)
    (now : Int) (token : Jwt) (u : User)
    (h : get_current_active_user s db now token = Except.ok u) :
    get_current_user s db now token = Except.ok u ∧ u.is_active = true := by
  cases hg : get_current_user s db now token with
  | error e => simp [get_current_active_user, hg] at h
  | ok u2 =>
      by_cases ha : u2.is_active = true
      · simp [get_current_active_user, hg, ha] at h
        subst h; exact ⟨rfl, ha⟩
      · simp [get_current_active_user, hg, Bool.eq_false_iff.mpr ha] at h

/-- The active-user gate fails only with the credentials or the inactive
rejection. -/
theorem get_current_active_user_error_cases (s : Settings) (db : List User)
    (now : Int) (token : Jwt) (e : PyErr)
    (h : get_current_active_user s db now token = Except.error e) :
    e = PyErr.http credentials_exception ∨ e = PyErr.http inactive_user_error := by
  cases hg : get_current_user s db now token with
  | error e2 =>
      have := get_current_user_error_uniform s db now token e2 hg
      subst this
      simp [get_current_active_user, hg] at h
      exact Or.inl h.symm
  | ok u2 =>
      by_cases ha : u2.is_active = true
      · simp [get_current_active_user, hg, ha] at h
      · simp [get_current_active_user, hg, Bool.eq_false_iff.mpr ha] at h
        exact Or.inr h.symm


/-- C6: the gate rejects with the one uniform 401 exactly on decode
failure, a missing sub or version claim, an unknown subject, or an epoch
mismatch; it rejects with 400 exactly when the resolved user is inactive;
and it rejects with 403 exactly when a valid token of an active user whose
role is not admin reaches the admin guard — so a 403 implies the caller
presented a valid token for an active user. -/
theorem authentication_gate_classification (s : Settings) (db : List User)
    (now : Int) (token : Jwt) :
    (get_current_user s db now token
        = Except.error (PyErr.http credentials_exception) ↔
      ((∃ m, jwt_decode token s.SECRET_KEY [s.ALGORITHM] now = Except.error m) ∨
       (∃ p, jwt_decode token s.SECRET_KEY [s.ALGORITHM] now = Except.ok p ∧
          (p.sub = none ∨ p.version = none)) ∨
       (∃ p un v, jwt_decode token s.SECRET_KEY [s.ALGORITHM] now = Except.ok p ∧
          p.sub = some un ∧ p.version = some v ∧
          get_user_by_username db un = none) ∨
       (∃ p un v u, jwt_decode token s.SECRET_KEY [s.ALGORITHM] now = Except.ok p ∧
          p.sub = some un ∧ p.version = some v ∧
          get_user_by_username db un = some u ∧ v ≠ u.token_version))) ∧
    (get_current_active_user s db now token
        = Except.error (PyErr.http inactive_user_error) ↔
      (∃ u, get_current_user s db now token = Except.ok u ∧
        u.is_active = false)) ∧
    (get_current_admin_user s db now token
        = Except.error (PyErr.http admin_required_error) ↔
      (∃ u, get_current_user s db now token = Except.ok u ∧
        u.is_active = true ∧ u.role ≠ UserRole.admin)) := by
  refine ⟨⟨?_, ?_⟩, ⟨?_, ?_⟩, ⟨?_, ?_⟩⟩
  · intro h
    cases hd : jwt_decode token s.SECRET_KEY [s.ALGORITHM] now with
    | error m => exact Or.inl ⟨m, rfl⟩
    | ok p =>
        cases hs : p.sub with
        | none => exact Or.inr (Or.inl ⟨p, rfl, Or.inl hs⟩)
        | some un =>
            cases hv : p.version with
            | none => exact Or.inr (Or.inl ⟨p, rfl, Or.inr hv⟩)
            | some v =>
                cases hu : get_user_by_username db un with
                | none => exact Or.inr (Or.inr (Or.inl ⟨p, un, v, rfl, hs, hv, hu⟩))
                | some u =>
                    by_cases hne : v = u.token_version
                    · exfalso
                      simp [get_current_user, hd, hs, hv, hu, hne] at h
                    · exact Or.inr (Or.inr (Or.inr
                        ⟨p, un, v, u, rfl, hs, hv, hu, hne⟩))
  · rintro (⟨m, hd⟩ | ⟨p, hd, hsv⟩ | ⟨p, un, v, hd, hs, hv, hu⟩ |
      ⟨p, un, v, u, hd, hs, hv, hu, hne⟩)
    · simp [get_current_user, hd]
    · rcases hsv with hs | hv
      · simp [get_current_user, hd, hs]
      · cases hs2 : p.sub <;> simp [get_current_user, hd, hs2, hv]
    · simp [get_current_user, hd, hs, hv, hu]
    · simp [get_current_user, hd, hs, hv, hu, hne]
  · intro h
    cases hg : get_current_user s db now token with
    | error e =>
        have he := get_current_user_error_uniform s db now token e hg
        subst he
        simp [get_current_active_user, hg, credentials_exception,
          inactive_user_error] at h
    | ok u =>
        by_cases ha : u.is_active = true
        · simp [get_current_active_user, hg, ha] at h
        · exact ⟨u, rfl, Bool.eq_false_iff.mpr ha⟩
  · rintro ⟨u, hg, hia⟩
    simp [get_current_active_user, hg, hia]
  · intro h
    cases hga : get_current_active_user s db now token with
    | error e =>
        rcases get_current_active_user_error_cases s db now token e hga with
          he | he <;> subst he <;>
          simp [get_current_admin_user, hga, credentials_exception,
            inactive_user_error, admin_required_error] at h
    | ok u =>
        obtain ⟨hg, ha⟩ := get_current_active_user_ok s db now token u hga
        by_cases hr : u.role = UserRole.admin
        · simp [get_current_admin_user, hga, hr] at h
        · exact ⟨u, hg, ha, hr⟩
  · rintro ⟨u, hg, ha, hr⟩
    simp [get_current_admin_user, get_current_active_user, hg, ha, hr]


/-- C7: a token minted with subject u and version v for a positive
duration, decoded with the same secret strictly before its expiry, yields
exactly subject u and version v; decoded strictly after its expiry, the
decode fails. -/
theorem create_access_token_roundtrip (s : Settings) (u : String) (v : Int)
    (now delta t1 t2 : Int) (h_pos : 0 < delta) (h_before : t1 < now + delta)
    (h_after : now + delta < t2) :
    jwt_decode
        (create_access_token s now { sub := some u, version := some v } (some delta))
        s.SECRET_KEY [s.ALGORITHM] t1
      = Except.ok { sub := some u, version := some v, exp := now + delta } ∧
    jwt_decode
        (create_access_token s now { sub := some u, version := some v } (some delta))
        s.SECRET_KEY [s.ALGORITHM] t2
      = Except.error "ExpiredSignatureError" := by
  constructor
  · have h1 : ¬ (now + delta < t1) := by omega
    simp [jwt_decode, create_access_token, jwt_encode, h1]
  · have h2 : now + delta < t2 := h_after
    simp [jwt_decode, create_access_token, jwt_encode, h2]

/-- Witness for C7 at concrete inputs. -/
theorem create_access_token_roundtrip_witness :
    jwt_decode
        (create_access_token s0 1000 { sub := some "alice", version := some 4 } (some 1800))
        s0.SECRET_KEY [s0.ALGORITHM] 1500
      = Except.ok { sub := some "alice", version := some 4, exp := 2800 } ∧
    jwt_decode
        (create_access_token s0 1000 { sub := some "alice", version := some 4 } (some 1800))
        s0.SECRET_KEY [s0.ALGORITHM] 9999
      = Except.error "ExpiredSignatureError" :=
  create_access_token_roundtrip s0 "alice" 4 1000 1800 1500 9999
    (by decide) (by decide) (by decide)


/-- C8 counterexample: a present but empty SECRET_KEY is accepted by the
Settings construction; pydantic only rejects absence for a plain str field,
so the claimed failure on an empty secret does not happen. -/
theorem settings_empty_secret_accepted :
    ∃ st, Settings_build { SECRET_KEY := some "", DATABASE_URL := some "db" }
        = Except.ok st ∧
      st.SECRET_KEY = "" := by
  exact ⟨_, rfl, rfl⟩

/-- C8 amended: constructing the configuration fails at startup exactly
when SECRET_KEY (or DATABASE_URL) is absent, and on success the secret is
exactly the supplied value with no fallback default; a present but empty
SECRET_KEY is accepted. -/
theorem settings_requires_secret_key (env : EnvVars) :
    (env.SECRET_KEY = none → ∃ m, Settings_build env = Except.error m) ∧
    (∀ st, Settings_build env = Except.ok st → env.SECRET_KEY = some st.SECRET_KEY) := by
  constructor
  · intro h
    exact ⟨"ValidationError: SECRET_KEY field required",
      by cases hd : env.DATABASE_URL <;> simp [Settings_build, h, hd]⟩
  · intro st h
    cases hs : env.SECRET_KEY with
    | none => simp [Settings_build, hs] at h
    | some sk =>
        cases hd : env.DATABASE_URL with
        | none => simp [Settings_build, hs, hd] at h
        | some db =>
            simp [Settings_build, hs, hd] at h
            rw [← h]

/-- C9 counterexample: on a malformed digest verify_password propagates the
passlib UnknownHashError instead of returning false. -/
theorem verify_password_malformed_raises :
    verify_password "password" (Digest.malformed "not-a-hash")
      = Except.error "UnknownHashError" ∧
    (∀ b, verify_password "password" (Digest.malformed "not-a-hash")
      ≠ Except.ok b) := by
  refine ⟨rfl, ?_⟩
  intro b h
  cases h

/-- C9 amended: verify_password returns a boolean on every well-formed
digest — true exactly on a match — and on every malformed digest it
propagates the passlib UnknownHashError rather than returning false. -/
theorem verify_password_wellformed_total (p secret : String) (salt : Nat) :
    verify_password p (Digest.bcrypt salt secret) = Except.ok (p == secret) ∧
    (∀ t, verify_password p (Digest.malformed t)
      = Except.error "UnknownHashError") := by
  exact ⟨rfl, fun t => rfl⟩

/-- C10: a successful rotation writes only refresh_token_hash and
refresh_token_expires_at; token_version, hashed_password, is_active, role
and the identity keys are unchanged, and the gate accepts exactly the same
access tokens before and after the rotation. -/
theorem rotate_refresh_token_frame (s : Settings) (now : Int) (nr : String)
    (ns : Nat) (u u2 : User) (raw r2 : String)
    (h : rotate_refresh_token s now nr ns u raw = Except.ok (u2, r2)) :
    u2.token_version = u.token_version ∧
    u2.hashed_password = u.hashed_password ∧
    u2.is_active = u.is_active ∧
    u2.role = u.role ∧
    u2.username = u.username ∧ u2.email = u.email ∧ u2.id = u.id ∧
    (∀ tok t, (get_current_user s [u2] t tok).isOk
      = (get_current_user s [u] t tok).isOk) := by
  have hu2 : u2 = { u with
      refresh_token_hash := some (pwd_context_hash ns nr),
      refresh_token_expires_at :=
        some { t := now + s.REFRESH_TOKEN_EXPIRE_DAYS * 86400, aware := true } } := by
    cases hh : u.refresh_token_hash with
    | none => simp [rotate_refresh_token, hh] at h
    | some stored =>
        cases hx : u.refresh_token_expires_at with
        | none => simp [rotate_refresh_token, hh, hx] at h
        | some e0 =>
            by_cases ht : (normalizeUtc e0).t < now
            · simp [rotate_refresh_token, hh, hx, ht] at h
            · cases hvr : pwd_context_verify raw stored with
              | error m => simp [rotate_refresh_token, hh, hx, ht, hvr] at h
              | ok b =>
                  cases b with
                  | false => simp [rotate_refresh_token, hh, hx, ht, hvr] at h
                  | true =>
                      simp [rotate_refresh_token, create_refresh_token,
                        hh, hx, ht, hvr] at h
                      exact h.1.symm
  subst hu2
  refine ⟨rfl, rfl, rfl, rfl, rfl, rfl, rfl, ?_⟩
  intro tok t
  cases hd : jwt_decode tok s.SECRET_KEY [s.ALGORITHM] t with
  | error m => simp [get_current_user, hd]
  | ok p =>
      cases hs : p.sub with
      | none => simp [get_current_user, hd, hs]
      | some un =>
          cases hv : p.version with
          | none => simp [get_current_user, hd, hs, hv]
          | some v =>
              by_cases hun : (u.username == un) = true
              · by_cases hne : v = u.token_version <;>
                  simp [get_current_user, hd, hs, hv, get_user_by_username,
                    hun, hne, Except.isOk, Except.toBool]
              · have hun2 : (u.username == un) = false := by
                  cases hq : (u.username == un) with
                  | false => rfl
                  | true => exact absurd hq hun
                simp [get_current_user, hd, hs, hv, get_user_by_username, hun2]

/-- Witness for C10 at a concrete successful rotation. -/
theorem rotate_refresh_token_frame_witness :
    u5r.token_version = u5.token_version ∧
    u5r.hashed_password = u5.hashed_password ∧
    u5r.is_active = u5.is_active ∧
    u5r.role = u5.role ∧
    u5r.username = u5.username ∧ u5r.email = u5.email ∧ u5r.id = u5.id ∧
    (∀ tok t, (get_current_user s0 [u5r] t tok).isOk
      = (get_current_user s0 [u5] t tok).isOk) :=
  rotate_refresh_token_frame s0 100 "new" 1 u5 u5r "tok" "new" (by decide)

end Scheduler
